import Mathlib

/-!
Shallow embedding of the vehicle-app backend core
(`backend/main.py`, `backend/models.py`) and proofs about it.

Conventions of the embedding:
* Python `float` values are modelled as `Rat` (the program only ever does
  field arithmetic on them); `int` as `Int`; record ids as `Nat`.
* `datetime` values are modelled as `PyDateTime` records compared
  lexicographically on their components, exactly as Python compares
  `datetime` objects (microseconds are not used by the program and are
  omitted).  ISO strings produced by `isoformat` are modelled by the
  `DateField.iso` constructor, since `fromisoformat` round-trips them.
* The SQLite store is a `Store` record of association lists;
  `session.get(Model, id)` is `List.find?` on the id, a `select ... where`
  is `List.filter`, and `order_by` is a stable sort (`List.insertionSort`,
  which is stable, like Python's `sorted`).
* Endpoints become total functions returning `Except ApiError`, an error
  constructor per HTTP status used by the handlers (403/404/400/500).
* Commit attempts against SQLite can fail nondeterministically; that
  nondeterminism is made explicit as a function `Nat → CommitOutcome`
  giving the outcome of each attempt of a retry loop.
-/

namespace VehicleApp

/-! ### Python numeric helpers -/

/-- Round-half-to-even on an exact rational, the rounding mode of Python's
built-in `round`. -/
def roundHalfEven (x : Rat) : Int :=
  if x - ⌊x⌋ < 1/2 then ⌊x⌋
  else if 1/2 < x - ⌊x⌋ then ⌊x⌋ + 1
  else if ⌊x⌋ % 2 = 0 then ⌊x⌋ else ⌊x⌋ + 1

/-- Python `round(x, nd)` for `nd` decimal digits. -/
def pyRound (nd : Nat) (x : Rat) : Rat :=
  ((roundHalfEven (x * 10 ^ nd) : Int) : Rat) / 10 ^ nd

/-! ### Dates -/

/-- Non-strict lexicographic comparison of integer key lists, modelling
how Python compares component tuples of `datetime` objects (and how
ISO-8601 strings with zero-padded components compare as strings). -/
def lexLe : List Int → List Int → Bool
  | [], _ => true
  | _ :: _, [] => false
  | a :: as, b :: bs => a < b || (a == b && lexLe as bs)

/-- Strict lexicographic comparison of integer key lists. -/
def lexLt (xs ys : List Int) : Bool := lexLe xs ys && !(xs == ys)

/-- A Python `datetime` value (microseconds unused by the program). -/
structure PyDateTime where
  year : Int
  month : Nat
  day : Nat
  hour : Nat
  minute : Nat
  second : Nat
deriving DecidableEq, Repr

/-- Comparison key of a `datetime`. -/
def PyDateTime.key (d : PyDateTime) : List Int :=
  [d.year, d.month, d.day, d.hour, d.minute, d.second]

/-- Key of `d.date()`, the calendar day of a `datetime` (also the
comparison key of the `date().isoformat()` string used to group the
daily breakdown). -/
def PyDateTime.dayKey (d : PyDateTime) : List Int :=
  [d.year, d.month, d.day]

/-- `datetime.min`, the sentinel the CSV export uses for unparsable dates. -/
def dtMin : PyDateTime := ⟨1, 1, 1, 0, 0, 0⟩

/-- The component ranges every real Python `datetime` satisfies
(`MINYEAR = 1`, `MAXYEAR = 9999`). -/
def PyDateTime.valid (d : PyDateTime) : Prop :=
  1 ≤ d.year ∧ d.year ≤ 9999 ∧ 1 ≤ d.month ∧ d.month ≤ 12 ∧ 1 ≤ d.day ∧
    d.day ≤ 31 ∧ d.hour ≤ 23 ∧ d.minute ≤ 59 ∧ d.second ≤ 59

instance (d : PyDateTime) : Decidable d.valid := by
  unfold PyDateTime.valid; infer_instance

/-! ### Data model (`models.py`) -/

/-- `Vehicle` table row. -/
structure Vehicle where
  id : Nat
  user_id : Nat
  make : String
  model : String
  year : Option Int
  registration : Option String
  vin : Option String
  start_odometer : Option Int
deriving DecidableEq, Repr

/-- `FuelEntry` table row.  `total_cost` is `Option` because
`monthly_report` explicitly guards against a `NULL` value in legacy rows. -/
structure FuelEntry where
  id : Nat
  vehicle_id : Nat
  date : PyDateTime
  odometer : Int
  liters : Rat
  price_per_liter : Rat
  total_cost : Option Rat
  notes : Option String
  receipt_photo : Option String
deriving DecidableEq, Repr

/-- `ServiceEvent` table row. -/
structure ServiceEvent where
  id : Nat
  vehicle_id : Nat
  date : PyDateTime
  type : String
  description : Option String
  cost : Rat
  next_due_date : Option PyDateTime
deriving DecidableEq, Repr

/-- The embedded single-file database. -/
structure Store where
  vehicles : List Vehicle
  fuel : List FuelEntry
  services : List ServiceEvent
deriving DecidableEq, Repr

/-- `session.get(Vehicle, id)`. -/
def getVehicle (s : Store) (vid : Nat) : Option Vehicle :=
  s.vehicles.find? (fun v => v.id == vid)

/-- `session.get(FuelEntry, id)`. -/
def getFuel (s : Store) (fid : Nat) : Option FuelEntry :=
  s.fuel.find? (fun f => f.id == fid)

/-- `session.get(ServiceEvent, id)`. -/
def getService (s : Store) (sid : Nat) : Option ServiceEvent :=
  s.services.find? (fun e => e.id == sid)

/-- One error constructor per HTTP error status raised by the handlers. -/
inductive ApiError where
  | forbidden (detail : String)
  | notFound (detail : String)
  | badRequest (detail : String)
  | serverError (detail : String)
deriving DecidableEq, Repr

/-! ### Consumption endpoint (`get_consumption`) -/

/-- Result body of `GET /vehicles/{id}/consumption`. -/
structure ConsumptionOut where
  vehicle_id : Nat
  distance : Int
  liters : Rat
  avg_consumption : Rat
deriving DecidableEq, Repr

/-- `fuel_entries[0].odometer` (0 when empty; only used after the length
check, as in the source). -/
def headOdometer : List FuelEntry → Int
  | [] => 0
  | e :: _ => e.odometer

/-- `fuel_entries[-1].odometer` (0 when empty). -/
def lastOdometer : List FuelEntry → Int
  | [] => 0
  | [e] => e.odometer
  | _ :: e :: es => lastOdometer (e :: es)

/-- Comparison used by `order_by(FuelEntry.odometer)`. -/
def fuelOdoLe (a b : FuelEntry) : Prop := a.odometer ≤ b.odometer

instance : DecidableRel fuelOdoLe := fun a b =>
  inferInstanceAs (Decidable (a.odometer ≤ b.odometer))

/-- `select(FuelEntry).where(vehicle_id == vid)`. -/
def fuelForVehicle (s : Store) (vid : Nat) : List FuelEntry :=
  s.fuel.filter (fun f => f.vehicle_id == vid)

/-- `order_by(FuelEntry.odometer)`: a stable ascending sort. -/
def sortByOdometer (l : List FuelEntry) : List FuelEntry :=
  l.insertionSort fuelOdoLe

/-- The arithmetic part of `get_consumption`, applied to the rows the
query returned (already sorted by odometer). -/
def computeConsumption (vehicle_id : Nat) (fuel_entries : List FuelEntry) :
    Except ApiError ConsumptionOut :=
  if fuel_entries.length < 2 then
    .error (.badRequest "Za mało danych do obliczenia spalania")
  else
    let distance : Int := lastOdometer fuel_entries - headOdometer fuel_entries
    if distance ≤ 0 then
      .error (.badRequest "Nieprawidłowe wskazania licznika (dystans musi być większy niż 0)")
    else
      let liters_used : Rat := (fuel_entries.map FuelEntry.liters).sum
      .ok { vehicle_id := vehicle_id, distance := distance, liters := liters_used,
            avg_consumption := pyRound 2 (liters_used / (distance : Rat) * 100) }

/-- `GET /vehicles/{vehicle_id}/consumption`.  Note the ownership check
raises 403 both when the vehicle is missing and when it is not owned. -/
def get_consumption (store : Store) (vehicle_id : Nat) (current_user : Nat) :
    Except ApiError ConsumptionOut :=
  match getVehicle store vehicle_id with
  | none => .error (.forbidden "Brak dostępu do pojazdu")
  | some vehicle =>
    if vehicle.user_id ≠ current_user then
      .error (.forbidden "Brak dostępu do pojazdu")
    else
      computeConsumption vehicle_id (sortByOdometer (fuelForVehicle store vehicle_id))

/-! ### Fuel-entry creation and the background write queue -/

/-- `FuelEntryCreate` request model.  The numeric fields are already
numbers after pydantic validation, so the `_to_number` normalisation in
the handler (strip spaces, comma to dot, `float(...)`) is the identity on
them and cannot raise. -/
structure FuelEntryCreate where
  vehicle_id : Nat
  date : Option PyDateTime
  odometer : Int
  liters : Rat
  price_per_liter : Rat
  total_cost : Option Rat
  notes : Option String
deriving DecidableEq, Repr

/-- The `total_cost` fallback shared by `create_fuel_entry` and
`update_fuel_entry`: `if not total_cost: total_cost = round(liters *
price_per_liter, 2)`.  Python falsiness of the float field means both a
missing value and an explicit `0` trigger the fallback. -/
def resolveTotalCost (supplied : Option Rat) (liters price_per_liter : Rat) : Rat :=
  match supplied with
  | none => pyRound 2 (liters * price_per_liter)
  | some c => if c = 0 then pyRound 2 (liters * price_per_liter) else c

/-- The payload dict handed to the background worker by `create_fuel_entry`. -/
structure FuelPayload where
  vehicle_id : Nat
  date : PyDateTime
  odometer : Int
  liters : Rat
  price_per_liter : Rat
  total_cost : Rat
  notes : Option String
deriving DecidableEq, Repr

/-- One job submitted through `submit_bg` to the single-worker executor. -/
structure QueuedJob where
  payload : FuelPayload
  user_id : Nat
deriving DecidableEq, Repr

/-- `POST /fuel/`: validates ownership synchronously, resolves the fields
and submits one background job; the caller gets 202 `queued` and the store
itself is untouched by the handler.  The result carries the HTTP status
and the list of jobs submitted by the handler. -/
def create_fuel_entry (store : Store) (fuel : FuelEntryCreate) (current_user : Nat)
    (now : PyDateTime) : Except ApiError (Nat × List QueuedJob) :=
  match getVehicle store fuel.vehicle_id with
  | none => .error (.forbidden "Nie masz dostępu do tego pojazdu")
  | some vehicle =>
    if vehicle.user_id ≠ current_user then
      .error (.forbidden "Nie masz dostępu do tego pojazdu")
    else
      let date_val := fuel.date.getD now
      let total_cost := resolveTotalCost fuel.total_cost fuel.liters fuel.price_per_liter
      .ok (202,
        [⟨⟨fuel.vehicle_id, date_val, fuel.odometer, fuel.liters, fuel.price_per_liter,
           total_cost, fuel.notes⟩, current_user⟩])

/-- Outcome of one SQLite commit attempt. -/
inductive CommitOutcome where
  | success
  | locked
  | fatal (msg : String)
deriving DecidableEq, Repr

/-- The commit retry loop of `bg_create_fuel`: `for attempt in range(3)`,
retrying after a `database is locked` error while `attempt < 2`, re-raising
otherwise.  `o n` is the outcome of attempt `n`. -/
def commitRetry (o : Nat → CommitOutcome) : Except String Unit :=
  match o 0 with
  | .success => .ok ()
  | .fatal msg => .error msg
  | .locked =>
    match o 1 with
    | .success => .ok ()
    | .fatal msg => .error msg
    | .locked =>
      match o 2 with
      | .success => .ok ()
      | .fatal msg => .error msg
      | .locked => .error "database is locked"

/-- The body of the `try` block of `bg_create_fuel`: re-validate ownership
(silently returning when the vehicle is gone or not owned), insert the
entry and commit with retries.  `.error` is an exception propagating out
of the `try` block. -/
def bg_create_fuel_inner (store : Store) (payload : FuelPayload) (user_id : Nat)
    (newId : Nat) (o : Nat → CommitOutcome) : Except String Store :=
  match getVehicle store payload.vehicle_id with
  | none => .ok store
  | some vehicle =>
    if vehicle.user_id ≠ user_id then .ok store
    else
      match commitRetry o with
      | .ok _ =>
        .ok { store with fuel := store.fuel ++
          [⟨newId, payload.vehicle_id, payload.date, payload.odometer, payload.liters,
            payload.price_per_liter, some payload.total_cost, payload.notes, none⟩] }
      | .error msg => .error msg

/-- `bg_create_fuel` as the executor runs it: the whole body is wrapped in
`try ... except Exception: traceback.print_exc()`, so no exception ever
escapes to the future.  Returns the store after the job together with the
exception escaping the job (always `none`). -/
def bg_create_fuel (store : Store) (payload : FuelPayload) (user_id : Nat)
    (newId : Nat) (o : Nat → CommitOutcome) : Store × Option String :=
  match bg_create_fuel_inner store payload user_id newId o with
  | .ok s => (s, none)
  | .error _ => (store, none)

/-- The done-callback installed by `submit_bg`: an exception of the future
is appended to `recent_bg_errors`, and the oldest entry is popped when the
list exceeds 20. -/
def recordBgError (recent : List String) (exc : Option String) : List String :=
  match exc with
  | none => recent
  | some e =>
    let l := recent ++ [e]
    if 20 < l.length then l.drop 1 else l

/-- Life cycle of one queued job: run it on the worker, then let the
done-callback update the recent-errors log. -/
def runBgJob (store : Store) (recent : List String) (job : QueuedJob)
    (newId : Nat) (o : Nat → CommitOutcome) : Store × List String :=
  let r := bg_create_fuel store job.payload job.user_id newId o
  (r.1, recordBgError recent r.2)

/-- The single worker (`ThreadPoolExecutor(max_workers=1)`) drains the
queue one job at a time in submission order. -/
def processQueue : Store → List String → List (QueuedJob × Nat × (Nat → CommitOutcome)) →
    Store × List String
  | s, r, [] => (s, r)
  | s, r, (j, i, o) :: rest =>
    let step := runBgJob s r j i o
    processQueue step.1 step.2 rest

/-! ### Fuel-entry update (synchronous) and delete -/

/-- The dict returned by `PUT /fuel/{fuel_id}`. -/
structure FuelRow where
  id : Nat
  vehicle_id : Nat
  date : PyDateTime
  odometer : Int
  liters : Rat
  price_per_liter : Rat
  total_cost : Rat
  notes : Option String
deriving DecidableEq, Repr

/-- The commit retry loop of `update_fuel_entry`: three attempts, retry on
`database is locked` while `attempt < 2`, otherwise HTTP 500. -/
def updateCommitRetry (o : Nat → CommitOutcome) : Except ApiError Unit :=
  match o 0 with
  | .success => .ok ()
  | .fatal msg => .error (.serverError msg)
  | .locked =>
    match o 1 with
    | .success => .ok ()
    | .fatal msg => .error (.serverError msg)
    | .locked =>
      match o 2 with
      | .success => .ok ()
      | .fatal msg => .error (.serverError msg)
      | .locked => .error (.serverError "database is locked")

/-- `PUT /fuel/{fuel_id}`: a synchronous update (the docstring notes it
replaced the queued version).  Returns the response row, the new store and
the background jobs submitted by the handler — none: the handler never
calls `submit_bg`. -/
def update_fuel_entry (store : Store) (fuel_id : Nat) (payload : FuelEntryCreate)
    (current_user : Nat) (now : PyDateTime) (o : Nat → CommitOutcome) :
    Except ApiError (FuelRow × Store × List QueuedJob) :=
  match getFuel store fuel_id with
  | none => .error (.notFound "Wpis tankowania nie znaleziony")
  | some db_entry =>
    match getVehicle store db_entry.vehicle_id with
    | none => .error (.forbidden "Nie masz dostępu do tego wpisu")
    | some vehicle =>
      if vehicle.user_id ≠ current_user then
        .error (.forbidden "Nie masz dostępu do tego wpisu")
      else
        let date_val := payload.date.getD now
        let total_cost := resolveTotalCost payload.total_cost payload.liters payload.price_per_liter
        let updated : FuelEntry :=
          { db_entry with
            odometer := payload.odometer
            liters := payload.liters
            price_per_liter := payload.price_per_liter
            total_cost := some total_cost
            date := date_val
            notes := match payload.notes with | some n => some n | none => db_entry.notes }
        match updateCommitRetry o with
        | .error e => .error e
        | .ok _ =>
          .ok ({ id := updated.id, vehicle_id := updated.vehicle_id, date := updated.date,
                 odometer := updated.odometer, liters := updated.liters,
                 price_per_liter := updated.price_per_liter, total_cost := total_cost,
                 notes := updated.notes },
               { store with fuel := store.fuel.map (fun f => if f.id == fuel_id then updated else f) },
               [])

/-! ### Service events -/

/-- `ServiceEventCreate` request model (cost already numeric after
pydantic validation, so the handler's normalisation is the identity). -/
structure ServiceEventCreate where
  vehicle_id : Nat
  date : Option PyDateTime
  type : String
  description : Option String
  cost : Rat
  next_due_date : Option PyDateTime
deriving DecidableEq, Repr

/-- The dict returned by the service-event endpoints (`title` mirrors
`type` for frontend compatibility). -/
structure ServiceRow where
  id : Nat
  vehicle_id : Nat
  date : PyDateTime
  title : String
  type : String
  description : Option String
  cost : Rat
  next_due_date : Option PyDateTime
deriving DecidableEq, Repr

/-- `PUT /service/{service_id}`: update when the id resolves, otherwise
fall back to creating a new event (upsert) after checking that the
payload's vehicle belongs to the caller.  `newId` is the id SQLite assigns
on insert.  The successful-commit path is modelled (commit failures raise
HTTP 500 in the source without retry). -/
def update_service_event (store : Store) (service_id : Nat) (payload : ServiceEventCreate)
    (current_user : Nat) (now : PyDateTime) (newId : Nat) :
    Except ApiError (Nat × ServiceRow × Store) :=
  let cost_val := payload.cost
  let date_val := payload.date.getD now
  let next_due := payload.next_due_date
  match getService store service_id with
  | none =>
    match getVehicle store payload.vehicle_id with
    | none => .error (.forbidden "Nie masz dostępu do tego pojazdu")
    | some vehicle =>
      if vehicle.user_id ≠ current_user then
        .error (.forbidden "Nie masz dostępu do tego pojazdu")
      else
        let new_event : ServiceEvent :=
          ⟨newId, payload.vehicle_id, date_val, payload.type, payload.description,
           cost_val, next_due⟩
        .ok (201,
          ⟨newId, payload.vehicle_id, date_val, payload.type, payload.type,
           payload.description, cost_val, next_due⟩,
          { store with services := store.services ++ [new_event] })
  | some db_event =>
    match getVehicle store db_event.vehicle_id with
    | none => .error (.forbidden "Nie masz dostępu do tego wpisu")
    | some vehicle =>
      if vehicle.user_id ≠ current_user then
        .error (.forbidden "Nie masz dostępu do tego wpisu")
      else
        let updated : ServiceEvent :=
          { db_event with
            type := payload.type
            description := payload.description
            cost := cost_val
            date := date_val
            next_due_date := next_due }
        .ok (200,
          ⟨updated.id, updated.vehicle_id, updated.date, updated.type, updated.type,
           updated.description, updated.cost, updated.next_due_date⟩,
          { store with
            services := store.services.map (fun e => if e.id == service_id then updated else e) })

/-- `GET /service/{service_id}`: 404 when the id does not resolve, 403
when the event's vehicle is missing or not owned, otherwise the row. -/
def get_service_event (store : Store) (service_id : Nat) (current_user : Nat) :
    Except ApiError ServiceRow :=
  match getService store service_id with
  | none => .error (.notFound "Wpis serwisu nie znaleziony")
  | some db_event =>
    match getVehicle store db_event.vehicle_id with
    | none => .error (.forbidden "Nie masz dostępu do tego wpisu")
    | some vehicle =>
      if vehicle.user_id ≠ current_user then
        .error (.forbidden "Nie masz dostępu do tego wpisu")
      else
        .ok ⟨db_event.id, db_event.vehicle_id, db_event.date, db_event.type, db_event.type,
             db_event.description, db_event.cost, db_event.next_due_date⟩

/-- `DELETE /service/{service_id}`: 404 when the id does not resolve (the
debug id listing in that response is presentation only), 403 when the
event's vehicle is missing or not owned, otherwise the record is removed
(successful-commit path; a commit failure raises HTTP 500 in the source). -/
def delete_service_event (store : Store) (service_id : Nat) (current_user : Nat) :
    Except ApiError Store :=
  match getService store service_id with
  | none => .error (.notFound "Wpis serwisu nie znaleziony")
  | some db_event =>
    match getVehicle store db_event.vehicle_id with
    | none => .error (.forbidden "Nie masz dostępu do tego wpisu")
    | some vehicle =>
      if vehicle.user_id ≠ current_user then
        .error (.forbidden "Nie masz dostępu do tego wpisu")
      else
        .ok { store with services := store.services.filter (fun e => ! (e.id == service_id)) }

/-! ### Monthly report (`monthly_report`) -/

/-- `datetime(year, month, 1)`, the inclusive start of the month window. -/
def monthStart (year : Int) (month : Nat) : PyDateTime := ⟨year, month, 1, 0, 0, 0⟩

/-- First day of the next month, the exclusive end of the window, with the
December → January rollover. -/
def nextMonthStart (year : Int) (month : Nat) : PyDateTime :=
  if month = 12 then ⟨year + 1, 1, 1, 0, 0, 0⟩ else ⟨year, month + 1, 1, 0, 0, 0⟩

/-- The filter `date >= start and date < next_month`. -/
def inWindow (year : Int) (month : Nat) (d : PyDateTime) : Bool :=
  lexLe (monthStart year month).key d.key && lexLt d.key (nextMonthStart year month).key

/-- Comparison used by `order_by(FuelEntry.date)`. -/
def fuelDateLe (a b : FuelEntry) : Prop := lexLe a.date.key b.date.key = true

instance : DecidableRel fuelDateLe := fun a b =>
  inferInstanceAs (Decidable (_ = true))

/-- Comparison of day keys, i.e. of the sorted ISO day strings
(`sorted(daily.keys())`; lexicographic string order on zero-padded ISO
dates agrees with lexicographic numeric order of `[year, month, day]` for
the years 1–9999 every `datetime` is confined to). -/
def dayKeyLe (a b : List Int) : Prop := lexLe a b = true

instance : DecidableRel dayKeyLe := fun a b =>
  inferInstanceAs (Decidable (_ = true))

/-- The date cell of a report entry: `isoformat()` output, which
`fromisoformat` round-trips (`iso`), or a string it rejects (`malformed`,
never produced by `monthly_report` itself). -/
inductive DateField where
  | iso (d : PyDateTime)
  | malformed (s : String)
deriving DecidableEq, Repr

/-- One element of the `entries` list of the report JSON. -/
structure ReportEntry where
  id : Nat
  date : DateField
  odometer : Int
  liters : Rat
  price_per_liter : Rat
  total_cost : Option Rat
  notes : Option String
deriving DecidableEq, Repr

/-- One element of the `daily` list: day key plus per-day sums, liters
rounded to 3 decimals and cost to 2. -/
structure DailyRow where
  day : List Int
  liters : Rat
  cost : Rat
deriving DecidableEq, Repr

/-- The report JSON of `GET /reports/monthly`. -/
structure MonthlyReport where
  vehicle_id : Nat
  year : Int
  month : Nat
  total_cost : Rat
  total_liters : Rat
  distance : Int
  avg_consumption : Option Rat
  entries : List ReportEntry
  daily : List DailyRow
deriving DecidableEq, Repr

/-- `max` of a list of odometer readings (the list is nonempty whenever
the program uses the value). -/
def intMax : List Int → Int
  | [] => 0
  | x :: xs => xs.foldl max x

/-- `min` of a list of odometer readings. -/
def intMin : List Int → Int
  | [] => 0
  | x :: xs => xs.foldl min x

/-- `r.total_cost if r.total_cost is not None else 0.0`. -/
def entryCost (r : FuelEntry) : Rat := r.total_cost.getD 0

/-- Per-day liters accumulated by the grouping dict: the rows of that
calendar day, summed in row order. -/
def dayLiters (rows : List FuelEntry) (day : List Int) : Rat :=
  ((rows.filter (fun r => r.date.dayKey == day)).map FuelEntry.liters).sum

/-- Per-day cost accumulated by the grouping dict. -/
def dayCost (rows : List FuelEntry) (day : List Int) : Rat :=
  ((rows.filter (fun r => r.date.dayKey == day)).map entryCost).sum

/-- The distinct day keys of the filtered rows (the keys of the `daily`
dict). -/
def dayKeys (rows : List FuelEntry) : List (List Int) :=
  (rows.map (fun r => r.date.dayKey)).dedup

/-- The row of the report's `entries` list built from a fuel entry
(`date` rendered by `isoformat`). -/
def toReportEntry (r : FuelEntry) : ReportEntry :=
  ⟨r.id, .iso r.date, r.odometer, r.liters, r.price_per_liter, r.total_cost, r.notes⟩

/-- The `daily` list of the report: the distinct day keys of the grouping
dict in ascending order, each with its rounded per-day sums. -/
def dailyOf (rows : List FuelEntry) : List DailyRow :=
  ((dayKeys rows).insertionSort dayKeyLe).map
    (fun d => ⟨d, pyRound 3 (dayLiters rows d), pyRound 2 (dayCost rows d)⟩)

/-- `GET /reports/monthly`: ownership check, month window, filtered query
ordered by date, aggregation and daily breakdown. -/
def monthly_report (store : Store) (vehicle_id : Nat) (year : Int) (month : Nat)
    (current_user : Nat) : Except ApiError MonthlyReport :=
  match getVehicle store vehicle_id with
  | none => .error (.forbidden "Brak dostępu do tego pojazdu")
  | some vehicle =>
    if vehicle.user_id ≠ current_user then
      .error (.forbidden "Brak dostępu do tego pojazdu")
    else if ¬ (1 ≤ month ∧ month ≤ 12 ∧ 1 ≤ year ∧ year ≤ 9999) then
      .error (.badRequest "Nieprawidłowy rok/miesiąc")
    else
      let rows := (store.fuel.filter
        (fun r => r.vehicle_id == vehicle_id && inWindow year month r.date)).insertionSort fuelDateLe
      if rows.isEmpty then
        .ok ⟨vehicle_id, year, month, 0, 0, 0, none, [], []⟩
      else
        let odometers := rows.map FuelEntry.odometer
        let distance : Int := if 2 ≤ odometers.length then intMax odometers - intMin odometers else 0
        let total_liters := (rows.map FuelEntry.liters).sum
        let total_cost := (rows.map entryCost).sum
        let avg_consumption :=
          if 0 < distance then some (pyRound 2 (total_liters / (distance : Rat) * 100)) else none
        .ok ⟨vehicle_id, year, month, pyRound 2 total_cost, pyRound 3 total_liters, distance,
             avg_consumption, rows.map toReportEntry, dailyOf rows⟩

/-! ### CSV export (`monthly_report_csv`) -/

/-- One CSV cell as written by `csv.writer` (a Python value per cell;
the textual encoding of `csv` round-trips cell lists). -/
inductive CsvCell where
  | str (s : String)
  | int (i : Int)
  | nat (n : Nat)
  | rat (q : Rat)
  | date (d : DateField)
  | blank
deriving DecidableEq, Repr

/-- Cell for an optional float. -/
def optRatCell : Option Rat → CsvCell
  | some q => .rat q
  | none => .blank

/-- Cell for an optional string. -/
def optStrCell : Option String → CsvCell
  | some s => .str s
  | none => .blank

/-- `parse_date_iso` of the CSV export: the datetime of a parsable ISO
string, `datetime.min` otherwise. -/
def parseDateIso : DateField → PyDateTime
  | .iso d => d
  | .malformed _ => dtMin

/-- The sort key comparison of the CSV entry rows:
`sorted(entries, key=parse_date_iso(date))`. -/
def csvEntryLe (a b : ReportEntry) : Prop :=
  lexLe (parseDateIso a.date).key (parseDateIso b.date).key = true

instance : DecidableRel csvEntryLe := fun a b =>
  inferInstanceAs (Decidable (_ = true))

/-- One entry row of the CSV. -/
def renderEntryRow (e : ReportEntry) : List CsvCell :=
  [.nat e.id, .date e.date, .int e.odometer, .rat e.liters, .rat e.price_per_liter,
   optRatCell e.total_cost, optStrCell e.notes]

/-- Re-parsing one CSV row back into a report-entry tuple. -/
def parseEntryRow : List CsvCell → Option ReportEntry
  | [.nat i, .date d, .int o, .rat l, .rat p, c, n] =>
    match c, n with
    | .rat tc, .str s => some ⟨i, d, o, l, p, some tc, some s⟩
    | .rat tc, .blank => some ⟨i, d, o, l, p, some tc, none⟩
    | .blank, .str s => some ⟨i, d, o, l, p, none, some s⟩
    | .blank, .blank => some ⟨i, d, o, l, p, none, none⟩
    | _, _ => none
  | _ => none

/-- The seven summary rows, the blank row and the column header row that
precede the entry rows. -/
def csvSummaryRows (data : MonthlyReport) : List (List CsvCell) :=
  [[.str "Vehicle ID", .nat data.vehicle_id],
   [.str "Year", .int data.year],
   [.str "Month", .nat data.month],
   [.str "Total Cost", .rat data.total_cost],
   [.str "Total Liters", .rat data.total_liters],
   [.str "Distance", .int data.distance],
   [.str "Avg Consumption (l/100km)", optRatCell data.avg_consumption],
   [],
   [.str "id", .str "date", .str "odometer", .str "liters", .str "price_per_liter",
    .str "total_cost", .str "notes"]]

/-- The CSV document built from the structured report data: summary rows,
blank row, header row, then one row per entry sorted (stably, like
Python's `sorted`) by parsed date. -/
def monthly_report_csv (data : MonthlyReport) : List (List CsvCell) :=
  csvSummaryRows data ++ (data.entries.insertionSort csvEntryLe).map renderEntryRow

/-- `GET /reports/monthly/csv`: reuses `monthly_report` and renders its
output. -/
def monthly_report_csv_endpoint (store : Store) (vehicle_id : Nat) (year : Int)
    (month : Nat) (current_user : Nat) : Except ApiError (List (List CsvCell)) :=
  (monthly_report store vehicle_id year month current_user).map monthly_report_csv

/-- Whether a date cell is an unparsable string. -/
def isMalformedDate : DateField → Bool
  | .iso _ => false
  | .malformed _ => true

/-- Whether a result is a not-found error (used to state that a given
response is not a 404). -/
def isNotFound : Except ApiError ConsumptionOut → Bool
  | .error (.notFound _) => true
  | _ => false

/-- Day key of a report entry as the daily grouping sees it. -/
def entryDayKey (e : ReportEntry) : List Int :=
  match e.date with
  | .iso d => d.dayKey
  | .malformed _ => []

/-- Per-day liters of the report's entry list. -/
def entriesDayLiters (es : List ReportEntry) (day : List Int) : Rat :=
  ((es.filter (fun e => entryDayKey e == day)).map ReportEntry.liters).sum

/-- Per-day cost of the report's entry list. -/
def entriesDayCost (es : List ReportEntry) (day : List Int) : Rat :=
  ((es.filter (fun e => entryDayKey e == day)).map (fun e => e.total_cost.getD 0)).sum

/-! ### Concrete data used to instantiate the theorems -/

/-- Vehicle 1, owned by user 7. -/
def v17 : Vehicle := ⟨1, 7, "Toyota", "Yaris", none, none, none, none⟩

/-- A fixed March-2024 timestamp. -/
def d5 : PyDateTime := ⟨2024, 3, 5, 12, 0, 0⟩

/-- A later March-2024 timestamp. -/
def d9 : PyDateTime := ⟨2024, 3, 9, 9, 30, 0⟩

/-- Fuel entry: odometer 10000, 40 liters. -/
def fe1 : FuelEntry := ⟨1, 1, d5, 10000, 40, 6, some 240, none, none⟩

/-- Fuel entry: odometer 10500, 38 liters. -/
def fe2 : FuelEntry := ⟨2, 1, d9, 10500, 38, 6, some 228, none, none⟩

/-- Store with one owned vehicle and the two example fuel entries. -/
def storeA : Store := ⟨[v17], [fe1, fe2], []⟩

/-- Store with one owned vehicle and a single fuel entry. -/
def storeB : Store := ⟨[v17], [fe1], []⟩

/-- The store with no records at all. -/
def emptyStore : Store := ⟨[], [], []⟩

/-- Create request with `total_cost` omitted (liters 40, price 6.259). -/
def reqC3 : FuelEntryCreate := ⟨1, some d5, 10600, 40, 6259/1000, none, none⟩

/-- Update request supplying every field, with a nonzero `total_cost`. -/
def reqC6 : FuelEntryCreate := ⟨1, some d5, 11000, 45, 6, some 3, none⟩

/-- The fuel entry with id 1 after applying `reqC6`. -/
def fe1upd : FuelEntry := ⟨1, 1, d5, 11000, 45, 6, some 3, none, none⟩

/-- `storeA` after the synchronous update of entry 1 by `reqC6`. -/
def storeA6 : Store := ⟨[v17], [fe1upd, fe2], []⟩

/-- The response row of that update. -/
def rowC6 : FuelRow := ⟨1, 1, d5, 11000, 45, 6, 3, none⟩

/-- A queued payload used to exercise the background job. -/
def payC7 : FuelPayload := ⟨1, d5, 11000, 45, 6, 270, none⟩

/-- Create request with an explicit `total_cost = 0`. -/
def reqC9 : FuelEntryCreate := ⟨1, some d5, 10600, 40, 6259/1000, some 0, none⟩

/-- Service-event payload used for the upsert fallback. -/
def svcReq : ServiceEventCreate := ⟨1, some d5, "Oil change", some "full synthetic", 300, none⟩

/-- Vehicle 1 owned by a different user (8). -/
def v18 : Vehicle := ⟨1, 8, "Opel", "Astra", none, none, none, none⟩

/-- Store whose fuel entry 1 belongs to a vehicle of user 8. -/
def storeD : Store := ⟨[v18], [fe1], []⟩

/-- A service event of vehicle 1. -/
def sev1 : ServiceEvent := ⟨3, 1, d5, "Przegląd", none, 150, none⟩

/-- Store whose service event 3 belongs to a vehicle of user 8. -/
def storeE : Store := ⟨[v18], [], [sev1]⟩

/-- The monthly report of `storeA` for vehicle 1, 2024-03. -/
def repA : MonthlyReport :=
  ⟨1, 2024, 3, 468, 78, 500, some (78/5),
   [toReportEntry fe1, toReportEntry fe2],
   [⟨[2024, 3, 5], 40, 240⟩, ⟨[2024, 3, 9], 38, 228⟩]⟩

/-! ### Helper lemmas: lexicographic comparison -/

theorem lexLe_refl (xs : List Int) : lexLe xs xs = true := by
  induction xs with
  | nil => rfl
  | cons a as ih => simp [lexLe, ih]

theorem lexLe_total (xs ys : List Int) : lexLe xs ys = true ∨ lexLe ys xs = true := by
  induction xs generalizing ys with
  | nil => exact Or.inl rfl
  | cons a as ih =>
    cases ys with
    | nil => exact Or.inr rfl
    | cons b bs =>
      simp only [lexLe, Bool.or_eq_true, Bool.and_eq_true, beq_iff_eq, decide_eq_true_eq]
      rcases lt_trichotomy a b with h | h | h
      · exact Or.inl (Or.inl h)
      · rcases ih bs with h2 | h2
        · exact Or.inl (Or.inr ⟨h, h2⟩)
        · exact Or.inr (Or.inr ⟨h.symm, h2⟩)
      · exact Or.inr (Or.inl h)

theorem lexLe_trans {xs ys zs : List Int} (h1 : lexLe xs ys = true)
    (h2 : lexLe ys zs = true) : lexLe xs zs = true := by
  induction xs generalizing ys zs with
  | nil => rfl
  | cons a as ih =>
    cases ys with
    | nil => simp [lexLe] at h1
    | cons b bs =>
      cases zs with
      | nil => simp [lexLe] at h2
      | cons c cs =>
        simp only [lexLe, Bool.or_eq_true, Bool.and_eq_true, beq_iff_eq,
          decide_eq_true_eq] at h1 h2 ⊢
        rcases h1 with h1 | ⟨rfl, h1'⟩
        · rcases h2 with h2 | ⟨rfl, _⟩
          · exact Or.inl (lt_trans h1 h2)
          · exact Or.inl h1
        · rcases h2 with h2 | ⟨rfl, h2'⟩
          · exact Or.inl h2
          · exact Or.inr ⟨rfl, ih h1' h2'⟩

theorem lexLe_antisymm {xs ys : List Int} (h1 : lexLe xs ys = true)
    (h2 : lexLe ys xs = true) : xs = ys := by
  induction xs generalizing ys with
  | nil =>
    cases ys with
    | nil => rfl
    | cons b bs => simp [lexLe] at h2
  | cons a as ih =>
    cases ys with
    | nil => simp [lexLe] at h1
    | cons b bs =>
      simp only [lexLe, Bool.or_eq_true, Bool.and_eq_true, beq_iff_eq,
        decide_eq_true_eq] at h1 h2
      rcases h1 with h1 | ⟨rfl, h1'⟩
      · rcases h2 with h2 | ⟨h2, _⟩ <;> (exfalso; omega)
      · rcases h2 with h2 | ⟨_, h2'⟩
        · exfalso; omega
        · rw [ih h1' h2']

theorem lexLt_iff {xs ys : List Int} : lexLt xs ys = true ↔ lexLe xs ys = true ∧ xs ≠ ys := by
  simp [lexLt]

/-! ### Helper lemmas: rounding error bounds -/

theorem roundHalfEven_sub_le (x : Rat) : |((roundHalfEven x : Int) : Rat) - x| ≤ 1/2 := by
  have h1 : ((⌊x⌋ : Int) : Rat) ≤ x := Int.floor_le x
  have h2 : x < ((⌊x⌋ : Int) : Rat) + 1 := Int.lt_floor_add_one x
  unfold roundHalfEven
  split_ifs with hf1 hf2 hf3 <;> rw [abs_le] <;> constructor <;> push_cast <;> linarith

theorem pyRound_sub_le (nd : Nat) (x : Rat) : |pyRound nd x - x| ≤ 1 / (2 * 10 ^ nd) := by
  have hp : (0 : ℚ) < 10 ^ nd := by positivity
  have h := roundHalfEven_sub_le (x * 10 ^ nd)
  have key : pyRound nd x - x =
      (((roundHalfEven (x * 10 ^ nd) : Int) : Rat) - x * 10 ^ nd) / 10 ^ nd := by
    unfold pyRound
    field_simp
    ring
  rw [key, abs_div, abs_of_pos hp]
  calc |((roundHalfEven (x * 10 ^ nd) : Int) : Rat) - x * 10 ^ nd| / 10 ^ nd
      ≤ (1/2) / 10 ^ nd := by gcongr
    _ = 1 / (2 * 10 ^ nd) := by rw [div_div]

/-! ### Helper lemmas: list sums -/

theorem sum_map_add {α : Type} (l : List α) (f g : α → Rat) :
    (l.map fun a => f a + g a).sum = (l.map f).sum + (l.map g).sum := by
  induction l with
  | nil => simp
  | cons a t ih =>
    simp only [List.map_cons, List.sum_cons, ih]
    ring

theorem sum_map_ite_zero (days : List (List Int)) (k : List Int) (x : Rat)
    (hk : k ∉ days) : (days.map fun d => if k == d then x else 0).sum = 0 := by
  induction days with
  | nil => rfl
  | cons d t ih =>
    simp only [List.mem_cons, not_or] at hk
    simp only [List.map_cons, List.sum_cons, ih hk.2, add_zero]
    rw [if_neg]
    simp [hk.1]

theorem sum_map_ite_eq (days : List (List Int)) (k : List Int) (x : Rat)
    (hnd : days.Nodup) (hk : k ∈ days) :
    (days.map fun d => if k == d then x else 0).sum = x := by
  induction days with
  | nil => cases hk
  | cons d t ih =>
    obtain ⟨hd, ht⟩ := List.nodup_cons.mp hnd
    rcases List.mem_cons.mp hk with rfl | hk'
    · simp only [List.map_cons, List.sum_cons]
      rw [if_pos (by simp), sum_map_ite_zero t k x hd, add_zero]
    · have hne : k ≠ d := by rintro rfl; exact hd hk'
      simp only [List.map_cons, List.sum_cons]
      rw [if_neg (by simp [hne]), ih ht hk', zero_add]

theorem sum_fiber (days : List (List Int)) (l : List FuelEntry)
    (key : FuelEntry → List Int) (f : FuelEntry → Rat)
    (hnd : days.Nodup) (hcov : ∀ a ∈ l, key a ∈ days) :
    (days.map fun d => ((l.filter fun a => key a == d).map f).sum).sum = (l.map f).sum := by
  induction l with
  | nil => simp
  | cons r t ih =>
    have step : ∀ d : List Int, (((r :: t).filter fun a => key a == d).map f).sum
        = (if key r == d then f r else 0) + ((t.filter fun a => key a == d).map f).sum := by
      intro d
      by_cases h : key r = d
      · simp [List.filter_cons, h]
      · simp [List.filter_cons, h]
    have e1 : (days.map fun d => (((r :: t).filter fun a => key a == d).map f).sum)
        = days.map fun d => (if key r == d then f r else 0) +
            ((t.filter fun a => key a == d).map f).sum :=
      List.map_congr_left fun d _ => step d
    rw [e1, sum_map_add, sum_map_ite_eq days (key r) (f r) hnd (hcov r (List.mem_cons_self r t)),
      ih fun a ha => hcov a (List.mem_cons_of_mem r ha)]
    simp

theorem sum_abs_bound (l : List (List Int)) (f g : List Int → Rat) (eps : Rat)
    (heps : 0 ≤ eps) (h : ∀ d ∈ l, |f d - g d| ≤ eps) :
    |(l.map f).sum - (l.map g).sum| ≤ l.length * eps := by
  induction l with
  | nil => simp
  | cons d t ih =>
    simp only [List.map_cons, List.sum_cons, List.length_cons]
    have h1 := h d (List.mem_cons_self d t)
    have h2 := ih fun e he => h e (List.mem_cons_of_mem d he)
    have tri : |f d + (t.map f).sum - (g d + (t.map g).sum)|
        ≤ |f d - g d| + |(t.map f).sum - (t.map g).sum| := by
      have e : f d + (t.map f).sum - (g d + (t.map g).sum)
          = (f d - g d) + ((t.map f).sum - (t.map g).sum) := by ring
      rw [e]
      exact abs_add _ _
    push_cast
    linarith

/-! ### Helper lemmas: dates -/

theorem dtMin_key_le {d : PyDateTime} (hd : d.valid) : lexLe dtMin.key d.key = true := by
  obtain ⟨h1, h2, h3, h4, h5, h6, h7, h8, h9⟩ := hd
  simp only [dtMin, PyDateTime.key, lexLe, Bool.or_eq_true, Bool.and_eq_true, beq_iff_eq,
    decide_eq_true_eq, and_true]
  omega

theorem key_inj {a b : PyDateTime} (h : a.key = b.key) : a = b := by
  cases a
  cases b
  simp only [PyDateTime.key, List.cons.injEq, and_true] at h
  simp only [PyDateTime.mk.injEq]
  omega

/-! ### Helper lemmas: daily breakdown -/

theorem entriesDayLiters_map (rows : List FuelEntry) (d : List Int) :
    entriesDayLiters (rows.map toReportEntry) d = dayLiters rows d := by
  unfold entriesDayLiters dayLiters
  rw [List.filter_map, List.map_map]
  rfl

theorem entriesDayCost_map (rows : List FuelEntry) (d : List Int) :
    entriesDayCost (rows.map toReportEntry) d = dayCost rows d := by
  unfold entriesDayCost dayCost
  rw [List.filter_map, List.map_map]
  rfl

theorem dailyOf_pairwise (rows : List FuelEntry) :
    (dailyOf rows).Pairwise (fun a b => lexLt a.day b.day = true) := by
  unfold dailyOf
  rw [List.pairwise_map]
  haveI : IsTotal (List Int) dayKeyLe := ⟨fun a b => lexLe_total a b⟩
  haveI : IsTrans (List Int) dayKeyLe := ⟨fun _ _ _ hab hbc => lexLe_trans hab hbc⟩
  have hs : ((dayKeys rows).insertionSort dayKeyLe).Pairwise dayKeyLe :=
    List.sorted_insertionSort dayKeyLe (dayKeys rows)
  have hn : ((dayKeys rows).insertionSort dayKeyLe).Nodup :=
    (List.Perm.nodup_iff (List.perm_insertionSort dayKeyLe (dayKeys rows))).mpr
      (List.nodup_dedup _)
  exact (hs.and hn).imp fun h => lexLt_iff.mpr h

theorem dailyOf_mem (rows : List FuelEntry) {drow : DailyRow} (h : drow ∈ dailyOf rows) :
    drow.liters = pyRound 3 (dayLiters rows drow.day)
    ∧ drow.cost = pyRound 2 (dayCost rows drow.day) := by
  unfold dailyOf at h
  rcases List.mem_map.mp h with ⟨d, _, rfl⟩
  exact ⟨rfl, rfl⟩

theorem dailyOf_cover (rows : List FuelEntry) {r : FuelEntry} (hr : r ∈ rows) :
    ∃ drow ∈ dailyOf rows, drow.day = r.date.dayKey := by
  refine ⟨⟨r.date.dayKey, pyRound 3 (dayLiters rows r.date.dayKey),
    pyRound 2 (dayCost rows r.date.dayKey)⟩, ?_, rfl⟩
  unfold dailyOf
  exact List.mem_map_of_mem _
    ((List.mem_insertionSort dayKeyLe).mpr
      (List.mem_dedup.mpr (List.mem_map_of_mem _ hr)))

theorem day_sum_bound (rows : List FuelEntry) (f : FuelEntry → Rat) (nd : Nat) :
    |(((dayKeys rows).insertionSort dayKeyLe).map
        (fun d => pyRound nd (((rows.filter (fun r => r.date.dayKey == d)).map f).sum))).sum
      - pyRound nd ((rows.map f).sum)|
    ≤ (((dayKeys rows).insertionSort dayKeyLe).length + 1) * (1 / (2 * 10 ^ nd)) := by
  have hnd : ((dayKeys rows).insertionSort dayKeyLe).Nodup :=
    (List.Perm.nodup_iff (List.perm_insertionSort dayKeyLe (dayKeys rows))).mpr
      (List.nodup_dedup _)
  have hcov : ∀ r ∈ rows, r.date.dayKey ∈ (dayKeys rows).insertionSort dayKeyLe := fun r hr =>
    (List.mem_insertionSort dayKeyLe).mpr (List.mem_dedup.mpr (List.mem_map_of_mem _ hr))
  have heps : (0 : ℚ) ≤ 1 / (2 * 10 ^ nd) := by positivity
  have h1 := sum_abs_bound ((dayKeys rows).insertionSort dayKeyLe)
    (fun d => pyRound nd (((rows.filter (fun r => r.date.dayKey == d)).map f).sum))
    (fun d => ((rows.filter (fun r => r.date.dayKey == d)).map f).sum)
    (1 / (2 * 10 ^ nd)) heps (fun d _ => pyRound_sub_le nd _)
  have h2 := sum_fiber ((dayKeys rows).insertionSort dayKeyLe) rows
    (fun r => r.date.dayKey) f hnd hcov
  have h3 : |pyRound nd ((rows.map f).sum) - (rows.map f).sum| ≤ 1 / (2 * 10 ^ nd) :=
    pyRound_sub_le nd _
  rw [h2] at h1
  have tri := abs_sub_le
    ((((dayKeys rows).insertionSort dayKeyLe).map
      (fun d => pyRound nd (((rows.filter (fun r => r.date.dayKey == d)).map f).sum))).sum)
    ((rows.map f).sum)
    (pyRound nd ((rows.map f).sum))
  rw [abs_sub_comm ((rows.map f).sum)] at tri
  linarith

theorem dailyOf_liters_bound (rows : List FuelEntry) :
    |((dailyOf rows).map DailyRow.liters).sum - pyRound 3 ((rows.map FuelEntry.liters).sum)|
    ≤ ((dailyOf rows).length + 1) * (1/2000) := by
  have h := day_sum_bound rows FuelEntry.liters 3
  have e2 : (1 : ℚ) / (2 * 10 ^ 3) = 1/2000 := by norm_num
  rw [e2] at h
  unfold dailyOf
  rw [List.map_map, List.length_map]
  exact h

theorem dailyOf_cost_bound (rows : List FuelEntry) :
    |((dailyOf rows).map DailyRow.cost).sum - pyRound 2 ((rows.map entryCost).sum)|
    ≤ ((dailyOf rows).length + 1) * (1/200) := by
  have h := day_sum_bound rows entryCost 2
  have e2 : (1 : ℚ) / (2 * 10 ^ 2) = 1/200 := by norm_num
  rw [e2] at h
  unfold dailyOf
  rw [List.map_map, List.length_map]
  exact h

/-- CSV row round trip: re-parsing the rendered row of an entry gives the
entry back. -/
theorem parse_render (e : ReportEntry) : parseEntryRow (renderEntryRow e) = some e := by
  rcases e with ⟨i, d, o, l, p, tc, n⟩
  cases tc <;> cases n <;> rfl

/-- Evaluation of the monthly report on the concrete store. -/
theorem monthly_report_storeA : monthly_report storeA 1 2024 3 7 = .ok repA := by
  with_unfolding_all rfl

/-! ### Claim C1 -/

/-- C1: for every fuel-entry sequence of an owned vehicle, sorted
ascending by odometer, with at least 2 entries and strictly positive
computed distance, the consumption computation returns
`distance = last.odometer - first.odometer`, `liters_used = sum of
liters`, and `avg_consumption = round((liters_used / distance) * 100, 2)`. -/
theorem C1_consumption_formula (store : Store) (vid user : Nat) (v : Vehicle)
    (hv : getVehicle store vid = some v)
    (hown : v.user_id = user)
    (hsorted : (fuelForVehicle store vid).Pairwise fuelOdoLe)
    (hlen : 2 ≤ (fuelForVehicle store vid).length)
    (hdist : 0 < lastOdometer (fuelForVehicle store vid) -
      headOdometer (fuelForVehicle store vid)) :
    get_consumption store vid user = .ok
      { vehicle_id := vid
        distance := lastOdometer (fuelForVehicle store vid) -
          headOdometer (fuelForVehicle store vid)
        liters := ((fuelForVehicle store vid).map FuelEntry.liters).sum
        avg_consumption := pyRound 2 (((fuelForVehicle store vid).map FuelEntry.liters).sum /
          ((lastOdometer (fuelForVehicle store vid) -
            headOdometer (fuelForVehicle store vid) : Int) : Rat) * 100) } := by
  have hsort_eq : sortByOdometer (fuelForVehicle store vid) = fuelForVehicle store vid :=
    List.Sorted.insertionSort_eq hsorted
  simp only [get_consumption, hv]
  rw [if_neg (by simp [hown]), hsort_eq]
  simp only [computeConsumption]
  rw [if_neg (by omega), if_neg (by omega)]

/-- C1 witness: the spec's example, entries `(odometer 10000, 40 l)` and
`(odometer 10500, 38 l)` give distance 500, liters 78 and average
consumption 15.6 l/100km. -/
theorem C1_witness :
    get_consumption storeA 1 7 =
      .ok { vehicle_id := 1, distance := 500, liters := 78, avg_consumption := 78/5 } := by
  have h := C1_consumption_formula storeA 1 7 v17 rfl rfl (by decide) (by decide) (by decide)
  exact h.trans (by with_unfolding_all rfl)

/-! ### Claim C2 -/

/-- C2: with fewer than 2 entries, or non-positive computed distance
(last minus first odometer after the ascending sort), the consumption
computation reports a client error and never a numeric result. -/
theorem C2_insufficient_data (store : Store) (vid user : Nat) (v : Vehicle)
    (hv : getVehicle store vid = some v) (hown : v.user_id = user)
    (hbad : (fuelForVehicle store vid).length < 2 ∨
      lastOdometer (sortByOdometer (fuelForVehicle store vid)) -
        headOdometer (sortByOdometer (fuelForVehicle store vid)) ≤ 0) :
    ∃ msg, get_consumption store vid user = .error (.badRequest msg) := by
  simp only [get_consumption, hv]
  rw [if_neg (by simp [hown])]
  simp only [computeConsumption]
  rcases hbad with hlen | hdist
  · rw [if_pos (by simpa [sortByOdometer, List.length_insertionSort] using hlen)]
    exact ⟨_, rfl⟩
  · by_cases hlen2 : (sortByOdometer (fuelForVehicle store vid)).length < 2
    · rw [if_pos hlen2]
      exact ⟨_, rfl⟩
    · rw [if_neg hlen2, if_pos hdist]
      exact ⟨_, rfl⟩

/-- C2 witness: a single fuel entry yields the insufficient-data client
error. -/
theorem C2_witness : ∃ msg, get_consumption storeB 1 7 = .error (.badRequest msg) :=
  C2_insufficient_data storeB 1 7 v17 rfl rfl (Or.inl (by decide))

/-! ### Claim C3 -/

/-- C3: when `total_cost` is not supplied, the queued payload — and the
entry the background job then stores — carries
`total_cost = round(liters * price_per_liter, 2)`. -/
theorem C3_total_cost_derived (store : Store) (fuel : FuelEntryCreate) (user : Nat)
    (now : PyDateTime) (v : Vehicle)
    (hv : getVehicle store fuel.vehicle_id = some v) (hown : v.user_id = user)
    (hnone : fuel.total_cost = none) :
    ∃ j : QueuedJob,
      create_fuel_entry store fuel user now = .ok (202, [j])
      ∧ j.payload.total_cost = pyRound 2 (fuel.liters * fuel.price_per_liter)
      ∧ ∀ (store₂ : Store) (newId : Nat) (v₂ : Vehicle),
          getVehicle store₂ j.payload.vehicle_id = some v₂ → v₂.user_id = j.user_id →
          ∃ entry : FuelEntry,
            bg_create_fuel store₂ j.payload j.user_id newId (fun _ => .success) =
              (⟨store₂.vehicles, store₂.fuel ++ [entry], store₂.services⟩, none)
            ∧ entry.total_cost = some (pyRound 2 (fuel.liters * fuel.price_per_liter)) := by
  refine ⟨⟨⟨fuel.vehicle_id, fuel.date.getD now, fuel.odometer, fuel.liters,
    fuel.price_per_liter, pyRound 2 (fuel.liters * fuel.price_per_liter), fuel.notes⟩, user⟩,
    ?_, rfl, ?_⟩
  · simp only [create_fuel_entry, hv, hnone, resolveTotalCost]
    rw [if_neg (by simp [hown])]
  · intro store₂ newId v₂ hv₂ hown₂
    refine ⟨⟨newId, fuel.vehicle_id, fuel.date.getD now, fuel.odometer, fuel.liters,
      fuel.price_per_liter, some (pyRound 2 (fuel.liters * fuel.price_per_liter)),
      fuel.notes, none⟩, ?_, rfl⟩
    simp only [bg_create_fuel, bg_create_fuel_inner, hv₂]
    rw [if_neg (by simp [hown₂])]
    rfl

/-- C3 witness: liters 40 and price 6.259 give a stored total cost of
250.36. -/
theorem C3_witness :
    ∃ j : QueuedJob, create_fuel_entry storeA reqC3 7 d5 = .ok (202, [j])
      ∧ j.payload.total_cost = 6259/25 := by
  obtain ⟨j, h1, h2, _⟩ := C3_total_cost_derived storeA reqC3 7 d5 v17 rfl rfl rfl
  exact ⟨j, h1, by rw [h2]; with_unfolding_all rfl⟩

/-! ### Claim C9 -/

/-- C9: an explicitly supplied falsy `total_cost` (`0` or missing) is
discarded on both the create and the update path and replaced with the
derived `round(liters * price_per_liter, 2)`. -/
theorem C9_zero_cost_replaced :
    (∀ (store : Store) (fuel : FuelEntryCreate) (user : Nat) (now : PyDateTime) (v : Vehicle),
      getVehicle store fuel.vehicle_id = some v → v.user_id = user →
      (fuel.total_cost = some 0 ∨ fuel.total_cost = none) →
      ∃ j : QueuedJob, create_fuel_entry store fuel user now = .ok (202, [j])
        ∧ j.payload.total_cost = pyRound 2 (fuel.liters * fuel.price_per_liter))
    ∧ (∀ (store : Store) (fid : Nat) (p : FuelEntryCreate) (user : Nat) (now : PyDateTime)
        (o : Nat → CommitOutcome) (row : FuelRow) (store₂ : Store) (jobs : List QueuedJob),
      (p.total_cost = some 0 ∨ p.total_cost = none) →
      update_fuel_entry store fid p user now o = .ok (row, store₂, jobs) →
      row.total_cost = pyRound 2 (p.liters * p.price_per_liter)) := by
  constructor
  · intro store fuel user now v hv hown hz
    refine ⟨⟨⟨fuel.vehicle_id, fuel.date.getD now, fuel.odometer, fuel.liters,
      fuel.price_per_liter, resolveTotalCost fuel.total_cost fuel.liters fuel.price_per_liter,
      fuel.notes⟩, user⟩, ?_, ?_⟩
    · simp only [create_fuel_entry, hv]
      rw [if_neg (by simp [hown])]
    · rcases hz with hz | hz <;> simp [resolveTotalCost, hz]
  · intro store fid p user now o row store₂ jobs hz hupd
    simp only [update_fuel_entry] at hupd
    split at hupd
    · simp at hupd
    · split at hupd
      · simp at hupd
      · split at hupd
        · simp at hupd
        · split at hupd
          · simp at hupd
          · simp only [Except.ok.injEq, Prod.mk.injEq] at hupd
            obtain ⟨hrow, _⟩ := hupd
            rw [← hrow]
            rcases hz with hz | hz <;> simp [resolveTotalCost, hz]

/-- C9 witness: create request with explicit `total_cost = 0`, liters 40
and price 6.259: the stored value is the derived 250.36, not 0. -/
theorem C9_witness :
    ∃ j : QueuedJob, create_fuel_entry storeA reqC9 7 d5 = .ok (202, [j])
      ∧ j.payload.total_cost = 6259/25 := by
  obtain ⟨j, h1, h2⟩ := C9_zero_cost_replaced.1 storeA reqC9 7 d5 v17 rfl rfl (Or.inl rfl)
  exact ⟨j, h1, by rw [h2]; with_unfolding_all rfl⟩

/-! ### Claim C6 -/

/-- C6 counterexample: `PUT /fuel/{id}` is a record-mutating operation
that commits synchronously inside the request handler and submits no job
to the write queue — it changes the store while its submitted-job list is
empty. -/
theorem C6_counterexample :
    update_fuel_entry storeA 1 reqC6 7 d5 (fun _ => .success) = .ok (rowC6, storeA6, [])
    ∧ storeA6 ≠ storeA := by
  constructor
  · with_unfolding_all rfl
  · decide

/-- C6 corrected: only fuel-entry creation is funneled through the
single-worker queue — it submits exactly one job and leaves the store to
the worker — while fuel-entry updates commit synchronously in the handler
and submit nothing; the single worker drains the queue one job at a time
in submission order. -/
theorem C6_amended :
    (∀ (store : Store) (fuel : FuelEntryCreate) (user : Nat) (now : PyDateTime) (v : Vehicle),
      getVehicle store fuel.vehicle_id = some v → v.user_id = user →
      ∃ j : QueuedJob, create_fuel_entry store fuel user now = .ok (202, [j]) ∧ j.user_id = user)
    ∧ (∀ (store : Store) (fid : Nat) (p : FuelEntryCreate) (user : Nat) (now : PyDateTime)
        (o : Nat → CommitOutcome) (row : FuelRow) (store₂ : Store) (jobs : List QueuedJob),
      update_fuel_entry store fid p user now o = .ok (row, store₂, jobs) → jobs = [])
    ∧ (∀ (s : Store) (r : List String) (j : QueuedJob) (i : Nat) (o : Nat → CommitOutcome)
        (rest : List (QueuedJob × Nat × (Nat → CommitOutcome))),
      processQueue s r ((j, i, o) :: rest) =
        processQueue (runBgJob s r j i o).1 (runBgJob s r j i o).2 rest) := by
  refine ⟨?_, ?_, ?_⟩
  · intro store fuel user now v hv hown
    refine ⟨⟨⟨fuel.vehicle_id, fuel.date.getD now, fuel.odometer, fuel.liters,
      fuel.price_per_liter, resolveTotalCost fuel.total_cost fuel.liters fuel.price_per_liter,
      fuel.notes⟩, user⟩, ?_, rfl⟩
    simp only [create_fuel_entry, hv]
    rw [if_neg (by simp [hown])]
  · intro store fid p user now o row store₂ jobs h
    simp only [update_fuel_entry] at h
    split at h
    · simp at h
    · split at h
      · simp at h
      · split at h
        · simp at h
        · split at h
          · simp at h
          · simp only [Except.ok.injEq, Prod.mk.injEq] at h
            exact h.2.2.symm
  · intro s r j i o rest
    rfl

/-- C6 witness: the create endpoint queues exactly one job for user 7, and
the concrete synchronous update of entry 1 queued nothing. -/
theorem C6_witness :
    (∃ j : QueuedJob, create_fuel_entry storeA reqC6 7 d5 = .ok (202, [j]) ∧ j.user_id = 7)
    ∧ ([] : List QueuedJob) = [] :=
  ⟨C6_amended.1 storeA reqC6 7 d5 v17 rfl rfl,
   C6_amended.2.1 storeA 1 reqC6 7 d5 (fun _ => .success) rowC6 storeA6 []
     (by with_unfolding_all rfl)⟩

/-! ### Claim C7 -/

/-- C7 counterexample: a queued fuel-creation job that exhausts its three
commit attempts on lock conflicts fails terminally, yet the recent-errors
log stays empty — the job's blanket exception handler swallows the
failure before the queue's done-callback can record it. -/
theorem C7_counterexample :
    bg_create_fuel_inner storeA payC7 7 3 (fun _ => .locked) = .error "database is locked"
    ∧ runBgJob storeA [] ⟨payC7, 7⟩ 3 (fun _ => .locked) = (storeA, []) := by
  constructor <;> rfl

theorem bg_create_fuel_snd_none (store : Store) (payload : FuelPayload) (uid newId : Nat)
    (o : Nat → CommitOutcome) : (bg_create_fuel store payload uid newId o).2 = none := by
  unfold bg_create_fuel
  rcases bg_create_fuel_inner store payload uid newId o with s | m <;> rfl

/-- C7 corrected: the done-callback keeps the recent-errors log bounded at
20 entries (oldest evicted at capacity) and records only exceptions that
escape a job; a job consults at most its three commit attempts (no further
retry); but the fuel-creation job traps every exception internally, so its
terminal failures never reach the callback and the log is unchanged — the
caller keeps only the already-returned 202. -/
theorem C7_amended :
    (∀ (recent : List String) (e : String), recent.length ≤ 20 →
      (recordBgError recent (some e)).length ≤ 20
      ∧ (recent.length = 20 → recordBgError recent (some e) = recent.drop 1 ++ [e]))
    ∧ (∀ o o₂ : Nat → CommitOutcome, o 0 = o₂ 0 → o 1 = o₂ 1 → o 2 = o₂ 2 →
      commitRetry o = commitRetry o₂)
    ∧ (∀ (store : Store) (payload : FuelPayload) (uid newId : Nat) (o : Nat → CommitOutcome),
      (bg_create_fuel store payload uid newId o).2 = none)
    ∧ (∀ (store : Store) (recent : List String) (job : QueuedJob) (newId : Nat)
        (o : Nat → CommitOutcome), (runBgJob store recent job newId o).2 = recent) := by
  refine ⟨?_, ?_, bg_create_fuel_snd_none, ?_⟩
  · intro recent e h
    simp only [recordBgError]
    split_ifs with hl
    · constructor
      · simpa using h
      · intro h20
        cases recent with
        | nil => simp at h20
        | cons a t => simp
    · constructor
      · simp only [List.length_append, List.length_singleton]
        simp [List.length_append] at hl
        omega
      · intro h20
        exfalso
        simp [List.length_append] at hl
        omega
  · intro o o₂ h0 h1 h2
    unfold commitRetry
    rw [h0, h1, h2]
  · intro store recent job newId o
    simp only [runBgJob, recordBgError, bg_create_fuel_snd_none]

/-- C7 witness: the bounded log at capacity stays at 20 entries after an
escaped exception, and the concrete fatally failing job lets no exception
escape. -/
theorem C7_witness :
    (recordBgError (List.replicate 20 "old") (some "new")).length ≤ 20
    ∧ (bg_create_fuel storeA payC7 7 3 (fun _ => .fatal "boom")).2 = none :=
  ⟨(C7_amended.1 (List.replicate 20 "old") "new" (by simp)).1,
   C7_amended.2.2.1 storeA payC7 7 3 (fun _ => .fatal "boom")⟩

/-! ### Claim C8 -/

/-- C8 counterexample: a consumption request for a vehicle id that does
not resolve at all is answered with the permission-denied error, not the
not-found error the claim requires. -/
theorem C8_counterexample :
    get_consumption emptyStore 99 7 = .error (.forbidden "Brak dostępu do pojazdu")
    ∧ isNotFound (get_consumption emptyStore 99 7) = false :=
  ⟨rfl, rfl⟩

/-- C8 corrected: an authorization failure (the record exists but its
vehicle is not owned by the caller) is always permission-denied, distinct
from not-found.  A nonexistent id yields not-found for fuel-entry update
and service-event read/delete; but the service-event update treats an
unresolved id as an upsert and never answers not-found, and operations
addressing a vehicle id conflate the outcomes, answering permission-denied
also when the vehicle does not exist. -/
theorem C8_amended :
    (∀ (store : Store) (fid : Nat) (p : FuelEntryCreate) (user : Nat) (now : PyDateTime)
        (o : Nat → CommitOutcome), getFuel store fid = none →
      update_fuel_entry store fid p user now o = .error (.notFound "Wpis tankowania nie znaleziony"))
    ∧ (∀ (store : Store) (fid : Nat) (p : FuelEntryCreate) (user : Nat) (now : PyDateTime)
        (o : Nat → CommitOutcome) (entry : FuelEntry) (v : Vehicle),
      getFuel store fid = some entry → getVehicle store entry.vehicle_id = some v →
      v.user_id ≠ user →
      update_fuel_entry store fid p user now o = .error (.forbidden "Nie masz dostępu do tego wpisu"))
    ∧ (∀ (store : Store) (sid user : Nat), getService store sid = none →
      get_service_event store sid user = .error (.notFound "Wpis serwisu nie znaleziony")
      ∧ delete_service_event store sid user = .error (.notFound "Wpis serwisu nie znaleziony"))
    ∧ (∀ (store : Store) (sid user : Nat) (ev : ServiceEvent) (v : Vehicle),
      getService store sid = some ev → getVehicle store ev.vehicle_id = some v →
      v.user_id ≠ user →
      get_service_event store sid user = .error (.forbidden "Nie masz dostępu do tego wpisu")
      ∧ delete_service_event store sid user = .error (.forbidden "Nie masz dostępu do tego wpisu"))
    ∧ (∀ (store : Store) (sid : Nat) (p : ServiceEventCreate) (user : Nat) (now : PyDateTime)
        (newId : Nat) (detail : String), getService store sid = none →
      update_service_event store sid p user now newId ≠ .error (.notFound detail))
    ∧ (∀ (store : Store) (vid user : Nat), getVehicle store vid = none →
      get_consumption store vid user = .error (.forbidden "Brak dostępu do pojazdu")) := by
  refine ⟨?_, ?_, ?_, ?_, ?_, ?_⟩
  · intro store fid p user now o h
    simp [update_fuel_entry, h]
  · intro store fid p user now o entry v hf hv hne
    simp [update_fuel_entry, hf, hv, hne]
  · intro store sid user h
    exact ⟨by simp [get_service_event, h], by simp [delete_service_event, h]⟩
  · intro store sid user ev v hs hv hne
    exact ⟨by simp [get_service_event, hs, hv, hne],
           by simp [delete_service_event, hs, hv, hne]⟩
  · intro store sid p user now newId detail hmiss h
    simp only [update_service_event, hmiss] at h
    split at h
    · simp at h
    · split at h
      · simp at h
      · simp at h
  · intro store vid user h
    simp [get_consumption, h]

/-- C8 witness: a nonexistent fuel id yields not-found, a foreign-owned
fuel entry yields permission-denied, a nonexistent service id yields
not-found on read and a foreign-owned one permission-denied, the
service-event update of a nonexistent id does not yield not-found, and a
nonexistent vehicle id yields permission-denied. -/
theorem C8_witness :
    update_fuel_entry emptyStore 5 reqC6 7 d5 (fun _ => .success) =
      .error (.notFound "Wpis tankowania nie znaleziony")
    ∧ update_fuel_entry storeD 1 reqC6 7 d5 (fun _ => .success) =
      .error (.forbidden "Nie masz dostępu do tego wpisu")
    ∧ get_service_event emptyStore 9 7 = .error (.notFound "Wpis serwisu nie znaleziony")
    ∧ get_service_event storeE 3 7 = .error (.forbidden "Nie masz dostępu do tego wpisu")
    ∧ update_service_event storeA 42 svcReq 7 d5 5 ≠
      .error (.notFound "Wpis serwisu nie znaleziony")
    ∧ get_consumption emptyStore 99 7 = .error (.forbidden "Brak dostępu do pojazdu") :=
  ⟨C8_amended.1 emptyStore 5 reqC6 7 d5 (fun _ => .success) rfl,
   C8_amended.2.1 storeD 1 reqC6 7 d5 (fun _ => .success) fe1 v18 rfl rfl (by decide),
   (C8_amended.2.2.1 emptyStore 9 7 rfl).1,
   (C8_amended.2.2.2.1 storeE 3 7 sev1 v18 rfl rfl (by decide)).1,
   C8_amended.2.2.2.2.1 storeA 42 svcReq 7 d5 5 "Wpis serwisu nie znaleziony" rfl,
   C8_amended.2.2.2.2.2 emptyStore 99 7 rfl⟩

/-! ### Claim C10 -/

/-- C10: an update request for a service-event id that does not resolve is
not reported as not-found: after verifying the payload's vehicle belongs
to the caller, a new service event is created from the payload and
returned as a 201 result. -/
theorem C10_upsert_fallback (store : Store) (service_id : Nat) (payload : ServiceEventCreate)
    (user : Nat) (now : PyDateTime) (newId : Nat) (v : Vehicle)
    (hmiss : getService store service_id = none)
    (hv : getVehicle store payload.vehicle_id = some v)
    (hown : v.user_id = user) :
    update_service_event store service_id payload user now newId =
      .ok (201,
        ⟨newId, payload.vehicle_id, payload.date.getD now, payload.type, payload.type,
         payload.description, payload.cost, payload.next_due_date⟩,
        ⟨store.vehicles, store.fuel, store.services ++
          [⟨newId, payload.vehicle_id, payload.date.getD now, payload.type,
            payload.description, payload.cost, payload.next_due_date⟩]⟩) := by
  simp only [update_service_event, hmiss, hv]
  rw [if_neg (by simp [hown])]

/-- C10 witness: updating the nonexistent service id 42 creates event 5
for vehicle 1 and returns it with status 201. -/
theorem C10_witness :
    update_service_event storeA 42 svcReq 7 d5 5 =
      .ok (201, ⟨5, 1, d5, "Oil change", "Oil change", some "full synthetic", 300, none⟩,
        ⟨[v17], [fe1, fe2], [⟨5, 1, d5, "Oil change", some "full synthetic", 300, none⟩]⟩) := by
  have h := C10_upsert_fallback storeA 42 svcReq 7 d5 5 v17 rfl rfl rfl
  exact h.trans (by with_unfolding_all rfl)

/-! ### Claim C4 -/

/-- C4: the monthly report's daily breakdown is grouped by calendar day
(each row's values are the rounded per-day sums over the report's entries
of that day, liters to 3 decimals, cost to 2), every entry's day is
represented, the rows are sorted strictly ascending by day, and the sums
of the per-day values across all days equal the month-level
`total_liters`/`total_cost` within the rounding tolerance of those
decimal precisions (half an ulp per rounded value). -/
theorem C4_daily_breakdown (store : Store) (vid : Nat) (y : Int) (m : Nat) (user : Nat)
    (rep : MonthlyReport)
    (hrep : monthly_report store vid y m user = .ok rep) :
    rep.daily.Pairwise (fun a b => lexLt a.day b.day = true)
    ∧ (∀ drow ∈ rep.daily,
        drow.liters = pyRound 3 (entriesDayLiters rep.entries drow.day)
        ∧ drow.cost = pyRound 2 (entriesDayCost rep.entries drow.day))
    ∧ (∀ e ∈ rep.entries, ∃ drow ∈ rep.daily, drow.day = entryDayKey e)
    ∧ |(rep.daily.map DailyRow.liters).sum - rep.total_liters|
        ≤ (rep.daily.length + 1) * (1/2000)
    ∧ |(rep.daily.map DailyRow.cost).sum - rep.total_cost|
        ≤ (rep.daily.length + 1) * (1/200) := by
  simp only [monthly_report] at hrep
  split at hrep
  · simp at hrep
  · split at hrep
    · simp at hrep
    · split at hrep
      · simp at hrep
      · split at hrep
        · simp only [Except.ok.injEq] at hrep
          subst hrep
          refine ⟨List.Pairwise.nil, ?_, ?_, ?_, ?_⟩
          · intro drow h
            exact absurd h (List.not_mem_nil drow)
          · intro e he
            exact absurd he (List.not_mem_nil e)
          · norm_num
          · norm_num
        · simp only [Except.ok.injEq] at hrep
          subst hrep
          refine ⟨dailyOf_pairwise _, ?_, ?_, dailyOf_liters_bound _, dailyOf_cost_bound _⟩
          · intro drow hd
            obtain ⟨h1, h2⟩ := dailyOf_mem _ hd
            exact ⟨by rw [entriesDayLiters_map]; exact h1,
                   by rw [entriesDayCost_map]; exact h2⟩
          · intro e he
            rcases List.mem_map.mp he with ⟨r, hr, rfl⟩
            obtain ⟨drow, hd, hday⟩ := dailyOf_cover _ hr
            exact ⟨drow, hd, by rw [hday]; rfl⟩

/-- C4 witness: the concrete March-2024 report has a strictly ascending
daily breakdown whose liters sum matches the month total within
tolerance. -/
theorem C4_witness :
    repA.daily.Pairwise (fun a b => lexLt a.day b.day = true)
    ∧ |(repA.daily.map DailyRow.liters).sum - repA.total_liters|
        ≤ (repA.daily.length + 1) * (1/2000) :=
  ⟨(C4_daily_breakdown storeA 1 2024 3 7 repA monthly_report_storeA).1,
   (C4_daily_breakdown storeA 1 2024 3 7 repA monthly_report_storeA).2.2.2.1⟩

/-! ### Claim C5 -/

/-- C5: the CSV export is a presentation transform of the structured
monthly report: the document is the summary rows, a blank row and one
header row followed by the entry rows; the entry rows re-parse exactly to
the structured report's entry tuples, stably sorted ascending by parsed
date; an entry whose date fails to parse takes the minimum sentinel date,
so everything placed before it also carries the sentinel key. -/
theorem C5_csv_presentation (store : Store) (vid : Nat) (y : Int) (m : Nat) (user : Nat)
    (data : MonthlyReport)
    (hrep : monthly_report store vid y m user = .ok data)
    (hvalid : ∀ e ∈ data.entries, ∀ d : PyDateTime, e.date = .iso d → d.valid) :
    monthly_report_csv_endpoint store vid y m user =
      .ok (csvSummaryRows data ++ (data.entries.insertionSort csvEntryLe).map renderEntryRow)
    ∧ (data.entries.insertionSort csvEntryLe).Perm data.entries
    ∧ (data.entries.insertionSort csvEntryLe).Pairwise csvEntryLe
    ∧ ((data.entries.insertionSort csvEntryLe).map renderEntryRow).map parseEntryRow =
        (data.entries.insertionSort csvEntryLe).map some
    ∧ (data.entries.insertionSort csvEntryLe).Pairwise
        (fun a b => isMalformedDate b.date = true → parseDateIso a.date = dtMin) := by
  haveI : IsTotal ReportEntry csvEntryLe := ⟨fun a b => lexLe_total _ _⟩
  haveI : IsTrans ReportEntry csvEntryLe := ⟨fun _ _ _ hab hbc => lexLe_trans hab hbc⟩
  have hsorted : (data.entries.insertionSort csvEntryLe).Pairwise csvEntryLe :=
    List.sorted_insertionSort csvEntryLe data.entries
  refine ⟨?_, List.perm_insertionSort csvEntryLe data.entries, hsorted, ?_, ?_⟩
  · simp [monthly_report_csv_endpoint, hrep, monthly_report_csv, Except.map]
  · rw [List.map_map]
    exact List.map_congr_left fun e _ => parse_render e
  · refine hsorted.imp_of_mem ?_
    intro a b ha hb hle hbad
    have hpb : parseDateIso b.date = dtMin := by
      cases hbd : b.date
      · rw [hbd] at hbad
        simp [isMalformedDate] at hbad
      · simp [parseDateIso]
    cases had : a.date with
    | malformed s => simp [parseDateIso]
    | iso d =>
      have hmem : a ∈ data.entries := (List.mem_insertionSort csvEntryLe).mp ha
      have hdv : d.valid := hvalid a hmem d had
      have h1 : lexLe (parseDateIso (DateField.iso d)).key dtMin.key = true := by
        have hle2 := hle
        unfold csvEntryLe at hle2
        rw [hpb, had] at hle2
        exact hle2
      have h2 : lexLe dtMin.key (parseDateIso (DateField.iso d)).key = true :=
        dtMin_key_le hdv
      exact key_inj (lexLe_antisymm h1 h2)

/-- C5 witness: the concrete CSV document is the summary rows followed
by the two rendered entry rows in date order, and a rendered row re-parses
to its entry tuple. -/
theorem C5_witness :
    monthly_report_csv_endpoint storeA 1 2024 3 7 =
      .ok (csvSummaryRows repA ++
        [renderEntryRow (toReportEntry fe1), renderEntryRow (toReportEntry fe2)])
    ∧ parseEntryRow (renderEntryRow (toReportEntry fe1)) = some (toReportEntry fe1) := by
  have hv : ∀ e ∈ repA.entries, ∀ d : PyDateTime, e.date = .iso d → d.valid := by
    intro e he d hd
    simp only [repA, List.mem_cons, List.not_mem_nil, or_false] at he
    rcases he with rfl | rfl <;>
      (simp only [toReportEntry, fe1, fe2, DateField.iso.injEq] at hd; subst hd; decide)
  have h := C5_csv_presentation storeA 1 2024 3 7 repA monthly_report_storeA hv
  exact ⟨h.1.trans (by with_unfolding_all rfl), parse_render (toReportEntry fe1)⟩

end VehicleApp
